import Mathlib

/-
Verification of the interaction/animation state machine of the ThreeJS
3D-resume repository (src/main.js), as a shallow embedding in Lean.

The embedding models the pointer-driven camera state machine (onClick,
zoomToModel / animateCamera, resetView / animateReset, showContent,
the startup intro animation flag), the per-frame hover highlight and
hover-sound logic, and the per-frame idle camera orbit.  Scalars that
the source manipulates as JS numbers are modelled as rationals where
the code is pure arithmetic, and as reals where trigonometric
functions appear (the idle orbit).  The rendering library (three.js)
is an external collaborator: ray intersection results are supplied as
inputs to the step functions, already sorted nearest-first, exactly as
raycaster.intersectObjects returns them.
-/

namespace Resume

/-- A 3-component vector, mirroring THREE.Vector3 where the code only
uses componentwise arithmetic (rational-valued embedding). -/
structure Vec3 where
  x : ℚ
  y : ℚ
  z : ℚ
  deriving DecidableEq, Repr

/-- THREE.Vector3.lerpVectors: v = v1 + (v2 - v1) * alpha, componentwise. -/
def lerpVectors (a b : Vec3) (t : ℚ) : Vec3 :=
  ⟨a.x + (b.x - a.x) * t, a.y + (b.y - a.y) * t, a.z + (b.z - a.z) * t⟩

/-- Squared Euclidean distance between two points. -/
def distSq (a b : Vec3) : ℚ :=
  (a.x - b.x) ^ 2 + (a.y - b.y) ^ 2 + (a.z - b.z) ^ 2

/-- Easing used by animateCamera (src/main.js lines 834-836):
progress < 0.5 ? 4p^3 : 1 - (-2p+2)^3 / 2 (ease-in-out cubic). -/
def easeInOutCubic (p : ℚ) : ℚ :=
  if p < 0.5 then 4 * p * p * p else 1 - (-2 * p + 2) ^ 3 / 2

/-- Easing used by animateReset (src/main.js line 923): 1 - (1-p)^3
(ease-out cubic). -/
def easeOutCubic (p : ℚ) : ℚ :=
  1 - (1 - p) ^ 3

/-- The data of a successful click/hover raycast resolution: the
clicked Focusable Item (paper model), characterised by the attributes
zoomToModel reads from it.  position is model.position at the moment
of the click; maxDim is the largest component of the size of
THREE.Box3().setFromObject(model) (the bounding-box computation itself
is the rendering library's); label is the text of userData.label. -/
structure Hit where
  position : Vec3
  maxDim : ℚ
  label : String
  deriving DecidableEq, Repr

/-- The tween in flight, if any.  animateCamera (focus-in) captures
startPosition, startTarget, targetPosition, modelPosition and
zoomDistance in its closure (src/main.js lines 806-857); animateReset
captures startPosition and startTarget (lines 913-941).  The hit is
the model argument of zoomToModel, needed by showContent on
completion. -/
inductive Tween where
  | inactive : Tween
  | focusIn (startPos startTarget targetPos modelPos : Vec3)
      (zoomDistance : ℚ) (hit : Hit) : Tween
  | reset (startPos startTarget : Vec3) : Tween
  deriving DecidableEq, Repr

/-- The content overlay DOM element: whether display is block, and the
(label, text) last injected into innerHTML. -/
structure Overlay where
  visible : Bool
  content : Option (String × String)
  deriving DecidableEq, Repr

/-- The mutable module-level state driving the interaction machine:
isZooming (line 776), selectedModel (line 777),
initialAnimationComplete (line 270), controls.enabled,
controls.minDistance / maxDistance, camera.position, controls.target,
the in-flight tween, and the overlay.  contentRequests and missLogs
record, newest first, the labels showContent was invoked with and the
labels whose lookup missed (console.error), respectively. -/
structure SimState where
  isZooming : Bool
  selectedModel : Option Hit
  initialAnimationComplete : Bool
  controlsEnabled : Bool
  minDistance : ℚ
  maxDistance : ℚ
  cameraPos : Vec3
  controlsTarget : Vec3
  tween : Tween
  overlay : Overlay
  contentRequests : List String
  missLogs : List String
  deriving DecidableEq, Repr

/-- Association-list lookup used for the sectionContent table
(src/main.js `sectionContent[labelText]`; all stored texts are
nonempty strings, so JS truthiness of the lookup coincides with key
membership). -/
def contentLookup (k : String) : List (String × String) → Option String
  | [] => Option.none
  | (k2, v) :: rest => if k = k2 then Option.some v else contentLookup k rest

/-- The static content table (src/main.js lines 641-732).  Keys are
verbatim; the multi-line template-literal values are transcribed with
newline escapes (surrounding indentation normalised). -/
def sectionContent : List (String × String) :=
  [ ("Éducation", "• Licence en Technologies de l\x27Information et de la Communication (TIC)\n  Faculté des Sciences Mathématiques, Physiques et Naturelles de Tunis\n  09/2022 – 12/2024\n\n• Baccalauréat en informatique\n  Lycée Pilote des Arts Radhiâ Haddad in El Omrane\n  06/2022"),
    ("Expérience", "• Stage en Développement Web - Smart Team\n  06/2023 – 08/2023 | Tunis, Tunisia\n  Description : Réalisation d\x27un stage en développement web où j\x27ai travaillé avec différents frameworks.\n  Compétences acquises : Maîtrise de frameworks tels que React, Angular, et Node.js; développement front-end\n  et back-end; collaboration au sein d\x27une équipe agile.\n\n• Workshop: AI x Web3 - Dione Protocol\n  06/2024 – 07/2024 | Tunis, Tunisia\n  Description : Réalisation d\x27un atelier en intelligence artificielle avec TensorFlow et frameworks de machine learning.\n  Participation à un atelier avancé sur l\x27application des technologies IA et Web3 à la désagrégation de l\x27énergie.\n\n•Stage en Développement  - Societé Tunisienne de banque(STB)\n02/2025-05/2025 | Tunis, Tunisia\nDescription : Réalisation d\x27un stage en développement web avec React et Node.js et Spring boot.\nCompétences acquises : Maîtrise de frameworks tels que React, Angular, et Node.js; développement front-end  et xsd (xml schema definition)\net back-end; collaboration au sein d\x27une équipe agile.\n\n• Stage en Développement et Réseautique - Tunisair\n  07/2024 – 08/2024 | Tunis, Tunisia\n  Description : Stage en développement et réseautique, maîtrise des principes CCMA et développement web.\n  Réalisation d\x27un site web pour la configuration à distance des ports Ethernet et la gestion réseau."),
    ("Compétences", "• Développement Web\n  - HTML, CSS, JavaScript\n  - Frameworks: React, Angular, Node.js\n  - Développement front-end et back-end\n\n• Réseaux\n  - Configuration et gestion des réseaux\n  - Principes CCMA\n  - Administration réseau\n\n• Intelligence Artificielle\n  - PyTorch\n  - Keras\n  - TensorFlow\n  - Machine Learning\n\n• Certifications\n  - Problem Solving (Algorithm)\n  - Python (Machine-Learning)\n  - IA x Web3\n  - Generative AI et Large Language Models\n  - Diplôme en Machine Learning (Python)"),
    ("À Propos", "Étudiant en 3ème année Licence de Réseautique et TIC à la Faculté des Sciences de Tunis.\nPassionné par le développement web et l\x27intelligence artificielle.\n\nEn recherche d\x27un stage de Projet de Fin d\x27Études (PFE) pour mettre en pratique mes connaissances\net développer mes compétences dans un environnement professionnel stimulant.\n\nLangues:\n• Arabe : Maternelle\n• Anglais : Compétent\n• Français : Avancé"),
    ("Mes Projets", "• Project Ecology Simulation (AI-Agent)\n  GitHub: github.com/AlainBx20/Ecology-Simulation\n\n• AI-Maze Using Reinforcement-Learning\n  GitHub: github.com/AlainBx20/AI-Maze\n\n• Lung-Disease-Classification\n  GitHub: github.com/AlainBx20/Lung-Disease-Classification"),
    ("Contact", "• Email: alaachulkha@gmail.com\n• Github: github.com/AlainBx20\n• LinkedIn: linkedin.com/in/alaa-chulkhaa-216a0a257\n• Site Web: alainbx20.github.io/Alaa19.github.io/\n\nLocalisation: Tunis, Tunisia\nTéléphone: 27003338") ]

/-- showContent(model) (src/main.js lines 859-905).  The model always
has userData.label with a canvas texture whose title is the label
text, so labelText is the hit's label.  On a table miss the function
logs (console.error) and returns with the overlay untouched; on a find
it injects the text and sets display to block.  contentRequests
records the invocation itself. -/
def showContent (labelText : String) (s : SimState) : SimState :=
  let s1 := { s with contentRequests := labelText :: s.contentRequests }
  match contentLookup labelText sectionContent with
  | Option.none => { s1 with missLogs := labelText :: s1.missLogs }
  | Option.some c => { s1 with overlay := ⟨true, Option.some (labelText, c)⟩ }

/-- finalCameraPosition (src/main.js line 262): the fixed idle anchor
the reset tween converges to. -/
def finalCameraPosition : Vec3 := ⟨0, 2, 8⟩

/-- zoomToModel(model) up to the first animateCamera frame
(src/main.js lines 806-827): sets isZooming, computes
zoomDistance = maxDimension * 2, the target position
modelPosition + (0, 0.2, zoomDistance), disables controls, and
captures the tween's start data.  selectedModel is set by onClick just
before the call (line 800). -/
def startZoom (h : Hit) (s : SimState) : SimState :=
  let zoomDistance := h.maxDim * 2
  let targetPosition : Vec3 :=
    ⟨h.position.x, h.position.y + 0.2, h.position.z + zoomDistance⟩
  { s with
      isZooming := true
      selectedModel := Option.some h
      controlsEnabled := false
      tween := Tween.focusIn s.cameraPos s.controlsTarget targetPosition
        h.position zoomDistance h }

/-- resetView() up to the first animateReset frame (src/main.js lines
907-916 and 942).  The guard on line 908 is vacuous in JS
(`!contentOverlay.style.display === 'block'` is always false), so the
body always runs: isZooming set, controls disabled, the reset tween's
start data captured, and the overlay hidden immediately. -/
def startReset (s : SimState) : SimState :=
  { s with
      isZooming := true
      controlsEnabled := false
      tween := Tween.reset s.cameraPos s.controlsTarget
      overlay := { s.overlay with visible := false } }

/-- One invocation of the in-flight tween's frame callback at a given
elapsed time (animateCamera, src/main.js lines 829-854, and
animateReset, lines 918-939).  With no tween in flight no callback is
scheduled, so the step is the identity. -/
def tweenFrame (s : SimState) (elapsed : ℚ) : SimState :=
  match s.tween with
  | Tween.inactive => s
  | Tween.focusIn startPos startTarget targetPos modelPos zoomDistance h =>
      let progress := min (elapsed / 1200) 1
      let easeProgress := easeInOutCubic progress
      let s1 := { s with
        cameraPos := lerpVectors startPos targetPos easeProgress
        controlsTarget := lerpVectors startTarget modelPos easeProgress }
      if progress < 1 then s1
      else
        showContent h.label
          { s1 with
              tween := Tween.inactive
              controlsEnabled := true
              minDistance := zoomDistance * 0.5
              maxDistance := zoomDistance * 2 }
  | Tween.reset startPos startTarget =>
      let progress := min (elapsed / 1500) 1
      let easeProgress := easeOutCubic progress
      let s1 := { s with
        cameraPos := lerpVectors startPos finalCameraPosition easeProgress
        controlsTarget := lerpVectors startTarget ⟨0, 0, 6⟩ easeProgress }
      if progress < 1 then s1
      else
        { s1 with
            tween := Tween.inactive
            isZooming := false
            controlsEnabled := true
            minDistance := 3
            maxDistance := 100
            selectedModel := Option.none
            overlay := { s1.overlay with visible := false } }

/-- The external events driving the machine.  click carries the result
of raycaster.intersectObjects(papers, true) followed by the
walk-to-labelled-ancestor (lines 791-799): some hit when the ray hit a
paper model, none otherwise.  frame drives the in-flight tween's
requestAnimationFrame callback with its measured elapsed time.
closeClick is the overlay close button.  introFrame drives
initialCameraAnimation (lines 273-301) with its elapsed time; only its
completion flag matters to the machine. -/
inductive Event where
  | click (hit : Option Hit)
  | frame (elapsed : ℚ)
  | closeClick
  | introFrame (elapsed : ℚ)
  deriving DecidableEq, Repr

/-- The machine's transition function.  onClick (src/main.js lines
782-804) returns immediately when isZooming; otherwise a hit starts
the zoom.  The close button exists in the DOM and is clickable only
while the overlay is displayed, and invokes resetView.
initialCameraAnimation flips initialAnimationComplete and re-enables
controls when its progress reaches 1 (lines 295-300); its rAF chain
stops afterwards. -/
def machineStep (s : SimState) (e : Event) : SimState :=
  match e with
  | Event.click oh =>
      if s.isZooming then s
      else
        match oh with
        | Option.none => s
        | Option.some h => startZoom h s
  | Event.frame t => tweenFrame s t
  | Event.closeClick => if s.overlay.visible then startReset s else s
  | Event.introFrame t =>
      if s.initialAnimationComplete then s
      else if min (t / 8000) 1 < 1 then s
      else { s with initialAnimationComplete := true, controlsEnabled := true }

/-- The module-level state after the script's synchronous top-level
evaluation: camera at (0, 100, 20) (line 261), controls target
(0, 0, 6) with minDistance 3 and maxDistance 100 and controls disabled
(lines 263-266), no zoom in flight, overlay hidden. -/
def initState : SimState :=
  { isZooming := false
    selectedModel := Option.none
    initialAnimationComplete := false
    controlsEnabled := false
    minDistance := 3
    maxDistance := 100
    cameraPos := ⟨0, 100, 20⟩
    controlsTarget := ⟨0, 0, 6⟩
    tween := Tween.inactive
    overlay := ⟨false, Option.none⟩
    contentRequests := []
    missLogs := [] }

/-- The spec's four machine states, read off the code's flags: an
in-flight focus tween is FocusTweenIn, an in-flight reset tween is
FocusTweenOut, otherwise isZooming distinguishes Focused from Idle
(zoomToModel leaves isZooming set after its tween completes; only
animateReset's completion clears it). -/
inductive Phase where
  | idle
  | focusTweenIn
  | focused
  | focusTweenOut
  deriving DecidableEq, Repr

/-- Phase of a machine state. -/
def phase (s : SimState) : Phase :=
  match s.tween with
  | Tween.focusIn .. => Phase.focusTweenIn
  | Tween.reset .. => Phase.focusTweenOut
  | Tween.inactive => if s.isZooming then Phase.focused else Phase.idle

/-- States reachable from the initial state by any event sequence. -/
inductive Reachable : SimState → Prop where
  | init : Reachable initState
  | step (s : SimState) (e : Event) : Reachable s → Reachable (machineStep s e)

/-! Hover side-channel of the animate loop (src/main.js lines 977-1007).
The per-frame raycast result against the papers is supplied as the
list of owning paper indices of the intersections, nearest first (the
walk from a hit mesh up to its labelled ancestor always succeeds:
every intersected mesh is a descendant of one of the n papers, and
every paper gets userData.label at creation, line 528). -/

/-- The hover-relevant per-frame state: label opacities of the n
papers and lastHoveredModel (src/main.js line 632). -/
structure HoverState (n : ℕ) where
  labelOpacity : Fin n → ℚ
  lastHoveredModel : Option (Fin n)

/-- One animate-loop hover pass (lines 981-1007): every paper's label
opacity is reset to 0, then the owner of the nearest intersection (if
any) gets opacity 0.8, and the hover sound plays exactly when that
owner differs from lastHoveredModel, which is then updated; with no
intersection lastHoveredModel is cleared.  The returned Bool is
whether hoverSound.play() was called this frame. -/
def hoverFrame {n : ℕ} (s : HoverState n) (hits : List (Fin n)) :
    HoverState n × Bool :=
  let cleared : Fin n → ℚ := fun _ => 0
  match hits.head? with
  | Option.some i =>
      let op := Function.update cleared i 0.8
      if s.lastHoveredModel = Option.some i then
        (⟨op, s.lastHoveredModel⟩, false)
      else
        (⟨op, Option.some i⟩, true)
  | Option.none => (⟨cleared, Option.none⟩, false)

/-! Idle camera orbit of the animate loop (src/main.js lines 948-975).
This part evaluates cosines and sines of the accumulated angle, so it
is embedded over the reals. -/

/-- A real-valued 3-vector for the orbit computation. -/
structure RVec3 where
  x : ℝ
  y : ℝ
  z : ℝ

/-- cameraOrbitSpeed (line 950). -/
noncomputable def cameraOrbitSpeed : ℝ := 0.02

/-- cameraOrbitRadius (line 951). -/
noncomputable def cameraOrbitRadius : ℝ := 4

/-- cameraOrbitHeight (line 952). -/
noncomputable def cameraOrbitHeight : ℝ := 0.8

/-- centerPoint (line 953), the fixed look-target of the idle orbit. -/
noncomputable def centerPoint : RVec3 := ⟨0, 0.7, 6⟩

/-- The camera-related state read and written by the animate loop's
orbit section: the three gating flags (initialAnimationComplete,
isZooming, selectedModel non-null), the accumulated orbit angle, the
camera position and the last lookAt target. -/
structure OrbitState where
  initialAnimationComplete : Bool
  isZooming : Bool
  hasSelectedModel : Bool
  cameraOrbitAngle : ℝ
  cameraPos : RVec3
  lookTarget : RVec3

/-- One animate-loop invocation's camera section (lines 961-975) at
scene time t (`time = Date.now() * 0.001`).  In the Idle gate the
angle decreases by the fixed cameraOrbitSpeed * 0.005 (no delta-time
scaling) and the camera is repositioned on the orbit; otherwise the
loop at most runs controls.update() (damping inside the black-box
OrbitControls), which this embedding leaves as the identity. -/
noncomputable def animateOrbitStep (s : OrbitState) (t : ℝ) : OrbitState :=
  if s.initialAnimationComplete && !s.isZooming && !s.hasSelectedModel then
    let a := s.cameraOrbitAngle - cameraOrbitSpeed * 0.005
    { s with
        cameraOrbitAngle := a
        cameraPos := ⟨Real.cos a * cameraOrbitRadius,
          cameraOrbitHeight + Real.sin (t * 0.3) * 0.2,
          Real.sin a * cameraOrbitRadius + 6⟩
        lookTarget := centerPoint }
  else s

/-! Helper lemmas. -/

/-- The focus-in easing maps completed progress to 1. -/
theorem easeInOutCubic_one : easeInOutCubic 1 = 1 := by
  norm_num [easeInOutCubic]

/-- The reset easing maps completed progress to 1. -/
theorem easeOutCubic_one : easeOutCubic 1 = 1 := by
  norm_num [easeOutCubic]

/-- Lerp at eased progress 1 lands exactly on the second endpoint. -/
theorem lerpVectors_one (a b : Vec3) : lerpVectors a b 1 = b := by
  cases b with
  | mk x y z => simp [lerpVectors, Vec3.mk.injEq]

/-- Tween progress min(elapsed/duration, 1) clamps to 1 once the
elapsed time reaches the duration. -/
theorem progress_done {d t : ℚ} (hd : 0 < d) (ht : d ≤ t) :
    min (t / d) 1 = 1 :=
  min_eq_right ((one_le_div hd).mpr ht)

/-- Tween progress is below 1 before the duration elapses. -/
theorem progress_not_done {d t : ℚ} (hd : 0 < d) (ht : t < d) :
    min (t / d) 1 < 1 :=
  lt_of_le_of_lt (min_le_left _ _) ((div_lt_one hd).mpr ht)

/-- showContent never touches the tween. -/
@[simp] theorem showContent_tween (l : String) (s : SimState) :
    (showContent l s).tween = s.tween := by
  unfold showContent
  cases contentLookup l sectionContent <;> rfl

/-- showContent never touches isZooming. -/
@[simp] theorem showContent_isZooming (l : String) (s : SimState) :
    (showContent l s).isZooming = s.isZooming := by
  unfold showContent
  cases contentLookup l sectionContent <;> rfl

/-- showContent never touches the zoom lower limit. -/
@[simp] theorem showContent_minDistance (l : String) (s : SimState) :
    (showContent l s).minDistance = s.minDistance := by
  unfold showContent
  cases contentLookup l sectionContent <;> rfl

/-- showContent never touches the zoom upper limit. -/
@[simp] theorem showContent_maxDistance (l : String) (s : SimState) :
    (showContent l s).maxDistance = s.maxDistance := by
  unfold showContent
  cases contentLookup l sectionContent <;> rfl

/-- showContent never touches the camera position. -/
@[simp] theorem showContent_cameraPos (l : String) (s : SimState) :
    (showContent l s).cameraPos = s.cameraPos := by
  unfold showContent
  cases contentLookup l sectionContent <;> rfl

/-- showContent never touches the controls target. -/
@[simp] theorem showContent_controlsTarget (l : String) (s : SimState) :
    (showContent l s).controlsTarget = s.controlsTarget := by
  unfold showContent
  cases contentLookup l sectionContent <;> rfl

/-- showContent never touches selectedModel. -/
@[simp] theorem showContent_selectedModel (l : String) (s : SimState) :
    (showContent l s).selectedModel = s.selectedModel := by
  unfold showContent
  cases contentLookup l sectionContent <;> rfl

/-- showContent records exactly one content request. -/
@[simp] theorem showContent_contentRequests (l : String) (s : SimState) :
    (showContent l s).contentRequests = l :: s.contentRequests := by
  unfold showContent
  cases contentLookup l sectionContent <;> rfl

/-- showContent preserves the machine phase. -/
@[simp] theorem showContent_phase (l : String) (s : SimState) :
    phase (showContent l s) = phase s := by
  unfold phase
  rw [showContent_tween, showContent_isZooming]

/-- showContent on a found label makes the overlay visible with the
looked-up content. -/
theorem showContent_found {l : String} {c : String} (s : SimState)
    (h : contentLookup l sectionContent = Option.some c) :
    (showContent l s).overlay = ⟨true, Option.some (l, c)⟩ := by
  unfold showContent
  rw [h]

/-- Key invariant of the machine: whenever a tween is in flight,
isZooming is set (one step). -/
theorem isZooming_inv_step (s : SimState) (e : Event)
    (ih : s.tween ≠ Tween.inactive → s.isZooming = true) :
    (machineStep s e).tween ≠ Tween.inactive →
      (machineStep s e).isZooming = true := by
  cases e with
  | click oh =>
      by_cases hz : s.isZooming
      · simp [machineStep, hz]
      · cases oh with
        | none => simpa [machineStep, hz] using ih
        | some h => simp [machineStep, hz, startZoom]
  | frame t =>
      cases htw : s.tween with
      | inactive =>
          have hts : machineStep s (Event.frame t) = s := by
            simp [machineStep, tweenFrame, htw]
          rw [hts]; exact ih
      | focusIn sp st tp mp zd hit =>
          have hz : s.isZooming = true := ih (by simp [htw])
          by_cases hp : min (t / 1200) (1 : ℚ) < 1
          · simp [machineStep, tweenFrame, htw, hp, hz]
          · intro _
            simp [machineStep, tweenFrame, htw, hp, hz]
      | reset sp st =>
          have hz : s.isZooming = true := ih (by simp [htw])
          by_cases hp : min (t / 1500) (1 : ℚ) < 1
          · simp [machineStep, tweenFrame, htw, hp, hz]
          · simp [machineStep, tweenFrame, htw, hp]
  | closeClick =>
      by_cases hv : s.overlay.visible
      · simp [machineStep, hv, startReset]
      · simpa [machineStep, hv] using ih
  | introFrame t =>
      by_cases hc : s.initialAnimationComplete
      · simpa [machineStep, hc] using ih
      · by_cases hp : min (t / 8000) (1 : ℚ) < 1
        · simpa [machineStep, hc, hp] using ih
        · simpa [machineStep, hc, hp] using ih

/-- Key invariant of the machine: in every reachable state, an
in-flight tween implies isZooming. -/
theorem reachable_isZooming {s : SimState} (hr : Reachable s) :
    s.tween ≠ Tween.inactive → s.isZooming = true := by
  induction hr with
  | init => simp [initState]
  | step s e _ ih => exact isZooming_inv_step s e ih

/-- A focus-in tween frame at or past the 1200 ms duration: the camera
lands exactly on the captured target position, the target on the model
position, the zoom range is narrowed from the captured zoomDistance,
controls are re-enabled and showContent runs. -/
theorem focus_frame_complete (s : SimState) (sp st tp mp : Vec3) (zd : ℚ)
    (hit : Hit) (t : ℚ) (hs : s.tween = Tween.focusIn sp st tp mp zd hit)
    (ht : (1200 : ℚ) ≤ t) :
    machineStep s (Event.frame t) =
      showContent hit.label
        { s with
            cameraPos := tp
            controlsTarget := mp
            tween := Tween.inactive
            controlsEnabled := true
            minDistance := zd * 0.5
            maxDistance := zd * 2 } := by
  have h1 : min (t / 1200) (1 : ℚ) = 1 := progress_done (by norm_num) ht
  simp [machineStep, tweenFrame, hs, h1, easeInOutCubic_one, lerpVectors_one]

/-- A focus-in tween frame strictly before the 1200 ms duration only
interpolates the camera pose; every other field is untouched and the
tween stays in flight. -/
theorem focus_frame_incomplete (s : SimState) (sp st tp mp : Vec3) (zd : ℚ)
    (hit : Hit) (t : ℚ) (hs : s.tween = Tween.focusIn sp st tp mp zd hit)
    (ht : t < 1200) :
    machineStep s (Event.frame t) =
      { s with
          cameraPos := lerpVectors sp tp (easeInOutCubic (min (t / 1200) 1))
          controlsTarget := lerpVectors st mp (easeInOutCubic (min (t / 1200) 1)) } := by
  have h1 : min (t / 1200) (1 : ℚ) < 1 := progress_not_done (by norm_num) ht
  simp [machineStep, tweenFrame, hs, h1]

/-- A reset tween frame at or past the 1500 ms duration: the camera
lands exactly on the fixed anchor (0,2,8) looking at (0,0,6), the zoom
limits are restored to 3 and 100, isZooming is cleared, selectedModel
is cleared and the overlay is hidden. -/
theorem reset_frame_complete (s : SimState) (sp st : Vec3) (t : ℚ)
    (hs : s.tween = Tween.reset sp st) (ht : (1500 : ℚ) ≤ t) :
    machineStep s (Event.frame t) =
      { s with
          cameraPos := finalCameraPosition
          controlsTarget := ⟨0, 0, 6⟩
          tween := Tween.inactive
          isZooming := false
          controlsEnabled := true
          minDistance := 3
          maxDistance := 100
          selectedModel := Option.none
          overlay := { s.overlay with visible := false } } := by
  have h1 : min (t / 1500) (1 : ℚ) = 1 := progress_done (by norm_num) ht
  simp [machineStep, tweenFrame, hs, h1, easeOutCubic_one, lerpVectors_one]

/-- Concrete Focusable Item used by the witnesses: the spec's own
scenario, home position (1, 0, 6) and largest bounding-box dimension
0.6, labelled with the first paper label. -/
def focusDemoHit : Hit := ⟨⟨1, 0, 6⟩, 3 / 5, "Éducation"⟩

/-- The state right after a click on focusDemoHit from the initial
state: a focus-in tween is in flight. -/
def focusDemoState : SimState :=
  machineStep initState (Event.click (Option.some focusDemoHit))

/-- C1: the interaction machine is single-flight.  In every reachable
state whose phase is FocusTweenIn, Focused or FocusTweenOut, a click
event is ignored outright (the state is unchanged, so no new tween
starts), and a step can only newly enter FocusTweenIn from Idle, so
after a click in Idle starts the focus-in tween, FocusTweenIn is not
re-entered for a second click until the machine is back in Idle. -/
theorem C1_single_flight (s : SimState) (hr : Reachable s) :
    (phase s ≠ Phase.idle → ∀ h, machineStep s (Event.click h) = s) ∧
    (∀ e, phase (machineStep s e) = Phase.focusTweenIn →
      phase s = Phase.idle ∨ phase s = Phase.focusTweenIn) := by
  constructor
  · intro hph h
    have hz : s.isZooming = true := by
      cases htw : s.tween with
      | inactive =>
          by_cases hz2 : s.isZooming
          · exact hz2
          · exact absurd (by simp [phase, htw, hz2]) hph
      | focusIn sp st tp mp zd hit =>
          exact reachable_isZooming hr (by simp [htw])
      | reset sp st =>
          exact reachable_isZooming hr (by simp [htw])
    simp [machineStep, hz]
  · intro e hph2
    cases e with
    | click oh =>
        by_cases hz : s.isZooming
        · right
          have hid : machineStep s (Event.click oh) = s := by
            simp [machineStep, hz]
          rwa [hid] at hph2
        · left
          have htw : s.tween = Tween.inactive := by
            by_contra hne
            exact hz (reachable_isZooming hr hne)
          simp [phase, htw, hz]
    | frame t =>
        cases htw : s.tween with
        | inactive =>
            right
            have hid : machineStep s (Event.frame t) = s := by
              simp [machineStep, tweenFrame, htw]
            rwa [hid] at hph2
        | focusIn sp st tp mp zd hit =>
            right
            simp [phase, htw]
        | reset sp st =>
            exfalso
            by_cases hp : min (t / 1500) (1 : ℚ) < 1
            · have hout : phase (machineStep s (Event.frame t)) = Phase.focusTweenOut := by
                simp [machineStep, tweenFrame, htw, hp, phase]
              rw [hout] at hph2
              exact absurd hph2 (by decide)
            · have hid2 : phase (machineStep s (Event.frame t)) = Phase.idle := by
                simp [machineStep, tweenFrame, htw, hp, phase]
              rw [hid2] at hph2
              exact absurd hph2 (by decide)
    | closeClick =>
        by_cases hv : s.overlay.visible
        · exfalso
          have hout : phase (machineStep s Event.closeClick) = Phase.focusTweenOut := by
            simp [machineStep, hv, startReset, phase]
          rw [hout] at hph2
          exact absurd hph2 (by decide)
        · right
          have hid : machineStep s Event.closeClick = s := by
            simp [machineStep, hv]
          rwa [hid] at hph2
    | introFrame t =>
        right
        by_cases hc : s.initialAnimationComplete
        · have hid : machineStep s (Event.introFrame t) = s := by
            simp [machineStep, hc]
          rwa [hid] at hph2
        · by_cases hp : min (t / 8000) (1 : ℚ) < 1
          · have hid : machineStep s (Event.introFrame t) = s := by
              simp [machineStep, hc, hp]
            rwa [hid] at hph2
          · have hsame : phase (machineStep s (Event.introFrame t)) = phase s := by
              simp [machineStep, hc, hp, phase]
            rwa [hsame] at hph2

/-- C1 witness: the concrete reachable state one click past the
initial state is in FocusTweenIn, and a second click there is a
no-op. -/
theorem C1_single_flight_witness :
    phase focusDemoState ≠ Phase.idle ∧
    machineStep focusDemoState (Event.click (Option.some focusDemoHit))
      = focusDemoState :=
  ⟨by decide,
   (C1_single_flight focusDemoState
      (Reachable.step initState (Event.click (Option.some focusDemoHit))
        Reachable.init)).1 (by decide) (Option.some focusDemoHit)⟩

/-- C10: the in-flight flag isZooming is set by starting a focus-in
tween, is preserved by every focus-in tween frame (in particular it is
not cleared when the tween completes, so it stays set through
Focused), becomes false exactly when a reset tween frame reaches the
1500 ms duration, and while it is set every click event is rejected by
it. -/
theorem C10_isZooming_lifecycle :
    (∀ s h, s.isZooming = false →
      (machineStep s (Event.click (Option.some h))).isZooming = true) ∧
    (∀ s sp st tp mp zd hit t, s.tween = Tween.focusIn sp st tp mp zd hit →
      (machineStep s (Event.frame t)).isZooming = s.isZooming) ∧
    (∀ s e, s.isZooming = true →
      ((machineStep s e).isZooming = false ↔
        ∃ sp st t, s.tween = Tween.reset sp st ∧ e = Event.frame t ∧
          (1500 : ℚ) ≤ t)) ∧
    (∀ s h, s.isZooming = true → machineStep s (Event.click h) = s) := by
  refine ⟨?_, ?_, ?_, ?_⟩
  · intro s h hz
    simp [machineStep, hz, startZoom]
  · intro s sp st tp mp zd hit t hs
    by_cases hp : min (t / 1200) (1 : ℚ) < 1
    · simp [machineStep, tweenFrame, hs, hp]
    · simp [machineStep, tweenFrame, hs, hp]
  · intro s e hz
    cases e with
    | click oh => simp [machineStep, hz]
    | closeClick =>
        by_cases hv : s.overlay.visible
        · simp [machineStep, hv, startReset]
        · simp [machineStep, hv, hz]
    | introFrame t =>
        by_cases hc : s.initialAnimationComplete
        · simp [machineStep, hc, hz]
        · by_cases hp : min (t / 8000) (1 : ℚ) < 1
          · simp [machineStep, hc, hp, hz]
          · simp [machineStep, hc, hp, hz]
    | frame t =>
        cases htw : s.tween with
        | inactive => simp [machineStep, tweenFrame, htw, hz]
        | focusIn sp st tp mp zd hit =>
            by_cases hp : min (t / 1200) (1 : ℚ) < 1
            · simp [machineStep, tweenFrame, htw, hp, hz]
            · simp [machineStep, tweenFrame, htw, hp, hz]
        | reset sp st =>
            by_cases hp : min (t / 1500) (1 : ℚ) < 1
            · have ht : t < 1500 := by
                rcases min_lt_iff.mp hp with h1 | h1
                · exact (div_lt_one (by norm_num)).mp h1
                · exact absurd h1 (lt_irrefl 1)
              constructor
              · intro hL
                rw [show machineStep s (Event.frame t)
                    = { s with
                        cameraPos := lerpVectors sp finalCameraPosition
                          (easeOutCubic (min (t / 1500) 1))
                        controlsTarget := lerpVectors st ⟨0, 0, 6⟩
                          (easeOutCubic (min (t / 1500) 1)) } from by
                  simp [machineStep, tweenFrame, htw, hp]] at hL
                simp [hz] at hL
              · rintro ⟨sp2, st2, t2, h1, h2, h3⟩
                cases h2
                exact absurd h3 (not_le.mpr ht)
            · have ht : (1500 : ℚ) ≤ t := by
                have hmin : (1 : ℚ) ≤ min (t / 1500) 1 := not_lt.mp hp
                have := (le_min_iff.mp hmin).1
                exact (one_le_div (by norm_num)).mp this
              constructor
              · intro _
                exact ⟨sp, st, t, rfl, rfl, ht⟩
              · intro _
                simp [machineStep, tweenFrame, htw, hp]
  · intro s h hz
    simp [machineStep, hz]

/-- Concrete state with a reset tween in flight, for witnesses. -/
def resetDemoState : SimState :=
  { initState with
      isZooming := true
      controlsEnabled := false
      tween := Tween.reset ⟨1, 2, 3⟩ ⟨0, 0, 6⟩ }

/-- C10 witness: the click from the initial state sets the flag, and
from a concrete state with a reset tween in flight the 1500 ms reset
frame clears it. -/
theorem C10_isZooming_lifecycle_witness :
    (machineStep initState (Event.click (Option.some focusDemoHit))).isZooming
        = true ∧
    (machineStep resetDemoState (Event.frame 1500)).isZooming = false :=
  ⟨C10_isZooming_lifecycle.1 initState focusDemoHit rfl,
   (C10_isZooming_lifecycle.2.2.1 resetDemoState (Event.frame 1500) rfl).mpr
    ⟨⟨1, 2, 3⟩, ⟨0, 0, 6⟩, 1500, rfl, rfl, by norm_num⟩⟩

/-- A click from a non-zooming state is exactly startZoom. -/
theorem click_starts_zoom (s : SimState) (h : Hit) (hz : s.isZooming = false) :
    machineStep s (Event.click (Option.some h)) = startZoom h s := by
  simp [machineStep, hz]

/-- C2 counterexample: for the spec's own scenario (item at (1,0,6),
largest bounding-box dimension 0.6), the camera-to-item squared
distance at focus-in completion is 1.48, not (2·0.6)² = 1.44: the
claimed equality of the distance with twice the largest dimension
fails (the 0.2 vertical offset of the target position is not
accounted for). -/
theorem C2_distance_counterexample :
    distSq (machineStep (machineStep initState
        (Event.click (Option.some focusDemoHit)))
        (Event.frame 1200)).cameraPos focusDemoHit.position
      ≠ (2 * focusDemoHit.maxDim) ^ 2 := by
  rw [click_starts_zoom initState focusDemoHit rfl]
  rw [focus_frame_complete (startZoom focusDemoHit initState) _ _ _ _ _ _ 1200
    rfl (by norm_num)]
  simp [distSq, startZoom, focusDemoHit]
  norm_num

/-- C2 amended: at focus-in tween completion the camera sits at the
item's click-time position offset by the vector (0, 0.2, 2·maxDim), so
the squared camera-to-item distance is (2·maxDim)² + 0.04 — the
forward-axis (z) offset alone equals twice the item's largest
bounding-box dimension. -/
theorem C2_focus_distance (s : SimState) (h : Hit) (t : ℚ)
    (hz : s.isZooming = false) (ht : (1200 : ℚ) ≤ t) :
    ((machineStep (machineStep s (Event.click (Option.some h)))
        (Event.frame t)).cameraPos
      = Vec3.mk h.position.x (h.position.y + 0.2)
          (h.position.z + h.maxDim * 2)) ∧
    distSq (machineStep (machineStep s (Event.click (Option.some h)))
        (Event.frame t)).cameraPos h.position
      = (2 * h.maxDim) ^ 2 + 0.04 := by
  rw [click_starts_zoom s h hz]
  rw [focus_frame_complete (startZoom h s) _ _ _ _ _ _ t rfl ht]
  constructor
  · simp [startZoom]
  · simp [distSq, startZoom]
    ring

/-- C2 witness: the amended statement at the spec's scenario input. -/
theorem C2_focus_distance_witness :
    distSq (machineStep (machineStep initState
        (Event.click (Option.some focusDemoHit)))
        (Event.frame 1200)).cameraPos focusDemoHit.position
      = (2 * focusDemoHit.maxDim) ^ 2 + 0.04 :=
  (C2_focus_distance initState focusDemoHit 1200 rfl (by norm_num)).2

/-- C3 counterexample: in the initial state the intro animation has
not completed, yet a click whose ray hits an item already starts a
focus-in tween — pointer-driven focus interaction is not disabled
during the intro. -/
theorem C3_intro_gating_counterexample :
    initState.initialAnimationComplete = false ∧
    phase (machineStep initState (Event.click (Option.some focusDemoHit)))
      = Phase.focusTweenIn := by
  exact ⟨rfl, by decide⟩

/-- Concrete orbit-loop state during the intro, for witnesses. -/
noncomputable def orbitIntroDemoState : OrbitState :=
  ⟨false, false, false, 0, ⟨0, 0, 0⟩, ⟨0, 0, 0⟩⟩

/-- C3 amended: orbit controls start disabled and the intro's
completion frame (elapsed ≥ 8000 ms) sets the process-wide flag and
re-enables them; the idle-orbit behavior of the animate loop does
nothing while the flag is unset; but clicks are not gated on the flag:
from any non-zooming state — in particular during the intro — a click
whose ray hits an item starts a focus-in tween. -/
theorem C3_intro_flag :
    initState.controlsEnabled = false ∧
    (∀ s t, s.initialAnimationComplete = false → (8000 : ℚ) ≤ t →
      (machineStep s (Event.introFrame t)).initialAnimationComplete = true ∧
      (machineStep s (Event.introFrame t)).controlsEnabled = true) ∧
    (∀ os t2, os.initialAnimationComplete = false →
      animateOrbitStep os t2 = os) ∧
    (∀ s h, s.isZooming = false →
      phase (machineStep s (Event.click (Option.some h)))
        = Phase.focusTweenIn) := by
  refine ⟨rfl, ?_, ?_, ?_⟩
  · intro s t hc ht
    have h1 : min (t / 8000) (1 : ℚ) = 1 := progress_done (by norm_num) ht
    constructor <;> simp [machineStep, hc, h1]
  · intro os t2 hc
    simp [animateOrbitStep, hc]
  · intro s h hz
    rw [click_starts_zoom s h hz]
    simp [phase, startZoom]

/-- C3 witness: the amended statement at concrete inputs — the 8000 ms
intro frame from the initial state flips the flag, the orbit step is
inert during the intro, and a click during the intro starts the focus
tween. -/
theorem C3_intro_flag_witness :
    (machineStep initState (Event.introFrame 8000)).initialAnimationComplete
        = true ∧
    animateOrbitStep orbitIntroDemoState 0 = orbitIntroDemoState ∧
    phase (machineStep initState (Event.click (Option.some focusDemoHit)))
      = Phase.focusTweenIn :=
  ⟨(C3_intro_flag.2.1 initState 8000 rfl (by norm_num)).1,
   C3_intro_flag.2.2.1 orbitIntroDemoState 0 rfl,
   C3_intro_flag.2.2.2 initState focusDemoHit rfl⟩

/-- The full interaction cycle: click on an item, focus-in tween frame
at t1, overlay close click, reset tween frame at t2. -/
def cycleEnd (s0 : SimState) (h : Hit) (t1 t2 : ℚ) : SimState :=
  machineStep
    (machineStep
      (machineStep (machineStep s0 (Event.click (Option.some h)))
        (Event.frame t1))
      Event.closeClick)
    (Event.frame t2)

/-- With the overlay visible, the close click runs resetView. -/
theorem close_click_resets (s2 : SimState) (hov : s2.overlay.visible = true) :
    machineStep s2 Event.closeClick = startReset s2 := by
  simp [machineStep, hov]

/-- From any state with visible overlay, closing and letting the reset
tween finish lands on the fixed anchor pose with restored limits, in
Idle. -/
theorem focused_close_reset (s2 : SimState) (t2 : ℚ)
    (hov : s2.overlay.visible = true) (ht2 : (1500 : ℚ) ≤ t2) :
    (machineStep (machineStep s2 Event.closeClick)
        (Event.frame t2)).cameraPos = Vec3.mk 0 2 8 ∧
    (machineStep (machineStep s2 Event.closeClick)
        (Event.frame t2)).controlsTarget = Vec3.mk 0 0 6 ∧
    (machineStep (machineStep s2 Event.closeClick)
        (Event.frame t2)).minDistance = 3 ∧
    (machineStep (machineStep s2 Event.closeClick)
        (Event.frame t2)).maxDistance = 100 ∧
    phase (machineStep (machineStep s2 Event.closeClick)
        (Event.frame t2)) = Phase.idle := by
  rw [close_click_resets s2 hov]
  rw [reset_frame_complete (startReset s2) s2.cameraPos s2.controlsTarget t2
    rfl ht2]
  exact ⟨rfl, rfl, rfl, rfl, by simp [phase]⟩

/-- C4: a reset tween frame reaching the 1500 ms duration restores, at
that moment, the camera to the fixed anchor (0,2,8) with look-target
(0,0,6) and the zoom limits to 3 and 100, whatever the tween's start
pose was (the anchor is a constant, not the pre-click pose); hence the
full Idle → FocusTweenIn → Focused → FocusTweenOut → Idle cycle from
any Idle state ends with exactly these values, back in Idle. -/
theorem C4_round_trip :
    (∀ s sp st t, s.tween = Tween.reset sp st → (1500 : ℚ) ≤ t →
      (machineStep s (Event.frame t)).cameraPos = Vec3.mk 0 2 8 ∧
      (machineStep s (Event.frame t)).controlsTarget = Vec3.mk 0 0 6 ∧
      (machineStep s (Event.frame t)).minDistance = 3 ∧
      (machineStep s (Event.frame t)).maxDistance = 100 ∧
      phase (machineStep s (Event.frame t)) = Phase.idle) ∧
    (∀ s0 h t1 t2, phase s0 = Phase.idle →
      (contentLookup h.label sectionContent).isSome = true →
      (1200 : ℚ) ≤ t1 → (1500 : ℚ) ≤ t2 →
      (cycleEnd s0 h t1 t2).cameraPos = Vec3.mk 0 2 8 ∧
      (cycleEnd s0 h t1 t2).controlsTarget = Vec3.mk 0 0 6 ∧
      (cycleEnd s0 h t1 t2).minDistance = 3 ∧
      (cycleEnd s0 h t1 t2).maxDistance = 100 ∧
      phase (cycleEnd s0 h t1 t2) = Phase.idle) := by
  constructor
  · intro s sp st t hs ht
    rw [reset_frame_complete s sp st t hs ht]
    exact ⟨rfl, rfl, rfl, rfl, by simp [phase]⟩
  · intro s0 h t1 t2 hidle hl ht1 ht2
    have htw : s0.tween = Tween.inactive := by
      cases htw2 : s0.tween with
      | inactive => rfl
      | focusIn sp st tp mp zd hit => exfalso; simp [phase, htw2] at hidle
      | reset sp st => exfalso; simp [phase, htw2] at hidle
    have hz : s0.isZooming = false := by
      cases hb : s0.isZooming with
      | false => rfl
      | true => exfalso; simp [phase, htw, hb] at hidle
    obtain ⟨c, hc⟩ := Option.isSome_iff_exists.mp hl
    unfold cycleEnd
    rw [click_starts_zoom s0 h hz]
    rw [focus_frame_complete (startZoom h s0) _ _ _ _ _ _ t1 rfl ht1]
    apply focused_close_reset
    · rw [showContent_found _ hc]
    · exact ht2

/-- C4 witness: the cycle from the initial state on the concrete item,
with on-time tween frames. -/
theorem C4_round_trip_witness :
    (cycleEnd initState focusDemoHit 1200 1500).cameraPos = Vec3.mk 0 2 8 ∧
    phase (cycleEnd initState focusDemoHit 1200 1500) = Phase.idle :=
  have h4 := C4_round_trip.2 initState focusDemoHit 1200 1500 (by decide)
    (by decide) (by norm_num) (by norm_num)
  ⟨h4.1, h4.2.2.2.2⟩

/-- C5: a focus-in tween frame whose progress reaches 1.0 puts the
machine in Focused and exactly then narrows the zoom range to
[0.5×, 2×] of the framing zoom distance and asks the Content Presenter
for the focused item's text; a frame strictly before the duration
leaves the machine in FocusTweenIn with the zoom limits and content
requests untouched. -/
theorem C5_focus_completion (s : SimState) (sp st tp mp : Vec3) (zd : ℚ)
    (hit : Hit) (t : ℚ) (hs : s.tween = Tween.focusIn sp st tp mp zd hit)
    (hz : s.isZooming = true) :
    ((1200 : ℚ) ≤ t →
      phase (machineStep s (Event.frame t)) = Phase.focused ∧
      (machineStep s (Event.frame t)).minDistance = zd * 0.5 ∧
      (machineStep s (Event.frame t)).maxDistance = zd * 2 ∧
      (machineStep s (Event.frame t)).contentRequests
        = hit.label :: s.contentRequests) ∧
    (t < 1200 →
      phase (machineStep s (Event.frame t)) = Phase.focusTweenIn ∧
      (machineStep s (Event.frame t)).minDistance = s.minDistance ∧
      (machineStep s (Event.frame t)).maxDistance = s.maxDistance ∧
      (machineStep s (Event.frame t)).contentRequests = s.contentRequests) := by
  constructor
  · intro ht
    rw [focus_frame_complete s sp st tp mp zd hit t hs ht]
    refine ⟨?_, by simp, by simp, by simp⟩
    rw [showContent_phase]
    simp [phase, hz]
  · intro ht
    rw [focus_frame_incomplete s sp st tp mp zd hit t hs ht]
    exact ⟨by simp [phase, hs], rfl, rfl, rfl⟩

/-- Concrete state with a focus-in tween in flight on the demo item,
for witnesses. -/
def focusTweenDemoState : SimState :=
  { initState with
      isZooming := true
      selectedModel := Option.some focusDemoHit
      controlsEnabled := false
      tween := Tween.focusIn ⟨0, 100, 20⟩ ⟨0, 0, 6⟩ ⟨1, 0.2, 7.2⟩ ⟨1, 0, 6⟩
        (6 / 5) focusDemoHit }

/-- C5 witness: the completing frame on the concrete in-flight state
enters Focused, sets minDistance to half the framing distance, and
requests the item's content. -/
theorem C5_focus_completion_witness :
    phase (machineStep focusTweenDemoState (Event.frame 1200))
        = Phase.focused ∧
    (machineStep focusTweenDemoState (Event.frame 1200)).minDistance
        = (6 / 5 : ℚ) * 0.5 ∧
    (machineStep focusTweenDemoState (Event.frame 1200)).contentRequests
        = ["Éducation"] :=
  have h5 := (C5_focus_completion focusTweenDemoState ⟨0, 100, 20⟩ ⟨0, 0, 6⟩
    ⟨1, 0.2, 7.2⟩ ⟨1, 0, 6⟩ (6 / 5) focusDemoHit 1200 rfl rfl).1 (by norm_num)
  ⟨h5.1, h5.2.1, h5.2.2.2⟩

/-- Both branches of a hover frame with a nearest hit set the same
opacities: all cleared, the hit's owner at 0.8. -/
theorem hoverFrame_opacity_some {n : ℕ} (s : HoverState n)
    (hits : List (Fin n)) (i : Fin n) (hh : hits.head? = Option.some i) :
    (hoverFrame s hits).1.labelOpacity
      = Function.update (fun _ => (0 : ℚ)) i 0.8 := by
  by_cases hl : s.lastHoveredModel = Option.some i <;>
    simp [hoverFrame, hh, hl]

/-- C6: in every frame, exactly one Focusable Item — the owner of the
nearest ray hit — ends with non-zero label opacity, at the fixed value
0.8, and zero items do when the ray hits none; every other item's
label is forced to zero opacity in that same frame. -/
theorem C6_hover_highlight {n : ℕ} (s : HoverState n) (hits : List (Fin n)) :
    ((Finset.univ.filter
        (fun j => (hoverFrame s hits).1.labelOpacity j ≠ 0)).card
      = if hits.head?.isSome then 1 else 0) ∧
    (∀ i, hits.head? = Option.some i →
      (hoverFrame s hits).1.labelOpacity i = 0.8) ∧
    (∀ j, hits.head? ≠ Option.some j →
      (hoverFrame s hits).1.labelOpacity j = 0) := by
  cases hh : hits.head? with
  | none =>
      refine ⟨?_, ?_, ?_⟩
      · simp [hoverFrame, hh]
      · intro i hi
        exact Option.noConfusion hi
      · intro j _
        simp [hoverFrame, hh]
  | some i =>
      rw [hoverFrame_opacity_some s hits i hh]
      refine ⟨?_, ?_, ?_⟩
      · have hone : (Finset.univ.filter
            (fun j => Function.update (fun _ => (0 : ℚ)) i 0.8 j ≠ 0)) = {i} := by
          ext j
          by_cases hj : j = i
          · subst hj
            norm_num [Function.update_apply]
          · simp [Function.update_apply, hj]
        rw [hone]
        simp
      · intro i2 hi2
        cases hi2
        simp [Function.update_apply]
      · intro j hj
        have hji : j ≠ i := fun hji => hj (by rw [hji])
        simp [Function.update_apply, hji]

/-- All-clear hover state on three items, for witnesses. -/
def hoverDemoState : HoverState 3 := ⟨fun _ => 0, Option.none⟩

/-- C6 witness: with nearest hit owned by item 0 of three, item 0 gets
opacity 0.8 and item 1 stays at zero. -/
theorem C6_hover_highlight_witness :
    (hoverFrame hoverDemoState [(0 : Fin 3), 2]).1.labelOpacity 0 = 0.8 ∧
    (hoverFrame hoverDemoState [(0 : Fin 3), 2]).1.labelOpacity 1 = 0 :=
  ⟨(C6_hover_highlight hoverDemoState [(0 : Fin 3), 2]).2.1 0 rfl,
   (C6_hover_highlight hoverDemoState [(0 : Fin 3), 2]).2.2 1 (by decide)⟩

/-- C7: the hover sound fires in a frame exactly when there is a
nearest-hit owner and it differs from the previous frame's hovered
item (including entering from no item); in particular a second
consecutive frame with the same hit list never fires it. -/
theorem C7_hover_sound {n : ℕ} (s : HoverState n) (hits : List (Fin n)) :
    ((hoverFrame s hits).2 = true ↔
      ∃ i, hits.head? = Option.some i ∧
        s.lastHoveredModel ≠ Option.some i) ∧
    (hoverFrame (hoverFrame s hits).1 hits).2 = false := by
  constructor
  · cases hh : hits.head? with
    | none => simp [hoverFrame, hh]
    | some i =>
        by_cases hl : s.lastHoveredModel = Option.some i
        · simp [hoverFrame, hh, hl]
        · simp [hoverFrame, hh, hl]
  · cases hh : hits.head? with
    | none => simp [hoverFrame, hh]
    | some i =>
        by_cases hl : s.lastHoveredModel = Option.some i
        · simp [hoverFrame, hh, hl]
        · simp [hoverFrame, hh, hl]

/-- C7 witness: entering item 1 from no hovered item fires the sound
once. -/
theorem C7_hover_sound_witness :
    (hoverFrame hoverDemoState [(1 : Fin 3)]).2 = true :=
  (C7_hover_sound hoverDemoState [(1 : Fin 3)]).1.mpr ⟨1, rfl, by decide⟩

/-- C8: in the Idle gate the animate loop decreases the orbit angle by
the constant cameraOrbitSpeed · 0.005 per invocation — independent of
the frame's time argument — and recomputes the camera position as
(cos(angle)·4, 0.8 + sin(t·0.3)·0.2, sin(angle)·4 + 6), looking at the
fixed center point (0, 0.7, 6). -/
theorem C8_idle_orbit (s : OrbitState) (t : ℝ)
    (h1 : s.initialAnimationComplete = true) (h2 : s.isZooming = false)
    (h3 : s.hasSelectedModel = false) :
    (animateOrbitStep s t).cameraOrbitAngle
        = s.cameraOrbitAngle - cameraOrbitSpeed * 0.005 ∧
    (∀ t2 : ℝ, (animateOrbitStep s t2).cameraOrbitAngle
        = (animateOrbitStep s t).cameraOrbitAngle) ∧
    (animateOrbitStep s t).cameraPos = RVec3.mk
        (Real.cos ((animateOrbitStep s t).cameraOrbitAngle) * 4)
        (0.8 + Real.sin (t * 0.3) * 0.2)
        (Real.sin ((animateOrbitStep s t).cameraOrbitAngle) * 4 + 6) ∧
    (animateOrbitStep s t).lookTarget = RVec3.mk 0 0.7 6 := by
  refine ⟨?_, ?_, ?_, ?_⟩
  · simp [animateOrbitStep, h1, h2, h3]
  · intro t2
    simp [animateOrbitStep, h1, h2, h3]
  · simp [animateOrbitStep, h1, h2, h3, cameraOrbitRadius, cameraOrbitHeight]
  · simp [animateOrbitStep, h1, h2, h3, centerPoint]

/-- Concrete orbit-loop state in the Idle gate, for witnesses. -/
noncomputable def orbitIdleDemoState : OrbitState :=
  ⟨true, false, false, 0, ⟨0, 0, 0⟩, ⟨0, 0, 0⟩⟩

/-- C8 witness: the Idle-gated step at angle 0 and time 0. -/
theorem C8_idle_orbit_witness :
    (animateOrbitStep orbitIdleDemoState 0).cameraOrbitAngle
        = orbitIdleDemoState.cameraOrbitAngle - cameraOrbitSpeed * 0.005 ∧
    (animateOrbitStep orbitIdleDemoState 0).lookTarget = RVec3.mk 0 0.7 6 :=
  have h8 := C8_idle_orbit orbitIdleDemoState 0 rfl rfl rfl
  ⟨h8.1, h8.2.2.2⟩

/-- C9: a content lookup whose label has no entry in the static table
logs the miss and aborts: the overlay is left exactly as it was — in
particular still hidden when it was hidden — and its text is not
changed. -/
theorem C9_lookup_miss (s : SimState) (l : String)
    (hm : contentLookup l sectionContent = Option.none) :
    (showContent l s).overlay = s.overlay ∧
    (showContent l s).missLogs = l :: s.missLogs ∧
    (s.overlay.visible = false → (showContent l s).overlay.visible = false) := by
  unfold showContent
  rw [hm]
  exact ⟨rfl, rfl, fun h => h⟩

/-- C9 witness: the label "Moon" (a scene label with no table entry)
misses, leaving the hidden overlay of the initial state untouched. -/
theorem C9_lookup_miss_witness :
    (showContent "Moon" initState).overlay = initState.overlay ∧
    (showContent "Moon" initState).missLogs = ["Moon"] :=
  have h9 := C9_lookup_miss initState "Moon" (by decide)
  ⟨h9.1, h9.2.1⟩

end Resume
